import Mathlib

/-!
Verification development for the Corral library (corral.js), a breakpoint /
"corral" state machine: per-corral activity tracking for the fences
`min`, `max` and `both`, idempotent event triggering with a force override,
derivation of the `both` event from its two constituents, per-corral callback
registries, and a registry of named corrals checked against an injected
media-query predicate.

The definitions below are a shallow embedding of `src/unnamed/part_000`
(the draft the claims cite as primary; `src/corral.js` is a near-duplicate
draft of the same design and differences are noted where relevant).
Callbacks are inert identifiers (`Nat`); invoking a callback is recorded in a
`Dispatch` event rather than executed.  JavaScript objects used as string-keyed
maps become insertion-ordered association lists.
-/

set_option autoImplicit false

namespace CorralSpec

/-- The three fence names of a corral: `'min'`, `'max'`, `'both'`
(`fenceNames` in the source). -/
inductive Fence where
  | min
  | max
  | both
deriving DecidableEq, Repr

/-- The two action names: `'enter'`, `'exit'` (`actionNames` in the source). -/
inductive EventAction where
  | enter
  | exit
deriving DecidableEq, Repr

/-- One fence's callback store, mirroring the per-fence record
`{enter: [], exit: [], active: false}` of `_callbacks` in the constructor.
Callbacks are modelled as inert identifiers. -/
structure FenceCallbacks where
  enter : List Nat
  exit : List Nat
  active : Bool
deriving DecidableEq, Repr

/-- The `_callbacks` private of a corral: one `FenceCallbacks` per fence. -/
structure CallbackSets where
  min : FenceCallbacks
  max : FenceCallbacks
  both : FenceCallbacks
deriving DecidableEq, Repr

/-- The `_props` private of a corral: name, axis, and the optional min and max
fence values (`null` becomes `none`). -/
structure Props where
  name : String
  axis : String
  min : Option String
  max : Option String
deriving DecidableEq, Repr

/-- A corral instance: its `_props` and `_callbacks` privates. -/
structure Corral where
  props : Props
  callbacks : CallbackSets
deriving DecidableEq, Repr

/-- One event dispatch performed by `corralTrigger`: the fence and action of
the event, plus the callbacks invoked (in order) by that dispatch. -/
structure Dispatch where
  fence : Fence
  action : EventAction
  invoked : List Nat
deriving DecidableEq, Repr

/-- `this.isActive(fence)`: read the `active` flag of a fence
(the source throws for an invalid fence name; fence names are already
parsed in this model, so that path cannot arise). -/
def isActive (c : Corral) (fence : Fence) : Bool :=
  match fence with
  | .min => c.callbacks.min.active
  | .max => c.callbacks.max.active
  | .both => c.callbacks.both.active

/-- Write the `active` flag of one fence (`_callbacks[fence].active = v`). -/
def setActive (c : Corral) (fence : Fence) (v : Bool) : Corral :=
  match fence with
  | .min => { c with callbacks := { c.callbacks with min := { c.callbacks.min with active := v } } }
  | .max => { c with callbacks := { c.callbacks with max := { c.callbacks.max with active := v } } }
  | .both => { c with callbacks := { c.callbacks with both := { c.callbacks.both with active := v } } }

/-- `_callbacks[fence][action]`: the callback list of one (fence, action). -/
def cbList (c : Corral) (fence : Fence) (action : EventAction) : List Nat :=
  match fence, action with
  | .min, .enter => c.callbacks.min.enter
  | .min, .exit => c.callbacks.min.exit
  | .max, .enter => c.callbacks.max.enter
  | .max, .exit => c.callbacks.max.exit
  | .both, .enter => c.callbacks.both.enter
  | .both, .exit => c.callbacks.both.exit

/-- Replace the callback list of one (fence, action)
(`_callbacks[fence][action] = l`). -/
def setCbList (c : Corral) (fence : Fence) (action : EventAction) (l : List Nat) : Corral :=
  match fence, action with
  | .min, .enter => { c with callbacks := { c.callbacks with min := { c.callbacks.min with enter := l } } }
  | .min, .exit => { c with callbacks := { c.callbacks with min := { c.callbacks.min with exit := l } } }
  | .max, .enter => { c with callbacks := { c.callbacks with max := { c.callbacks.max with enter := l } } }
  | .max, .exit => { c with callbacks := { c.callbacks with max := { c.callbacks.max with exit := l } } }
  | .both, .enter => { c with callbacks := { c.callbacks with both := { c.callbacks.both with enter := l } } }
  | .both, .exit => { c with callbacks := { c.callbacks with both := { c.callbacks.both with exit := l } } }

/-- The execution path of `corralTrigger` (part_000, lines 274-320) when the
parsed fence is `'both'`: the idempotence guard, the dispatch of the event's
callbacks, setting `_callbacks.both.active`, and the authoritative write
`_callbacks.min.active = _callbacks.max.active = fenceCallbacks.active`
(lines 300-302).  The source's recursive call
`_this.trigger(eventInfo.action + '-both')` always lands in this path with
`force` and `triggerBoth` undefined (so `force` is falsy); splitting it out
makes the one-level recursion of the source structural. -/
def triggerBothFence (c : Corral) (action : EventAction) (force : Bool) :
    Corral × List Dispatch :=
  if isActive c Fence.both == (action == EventAction.enter) && !force then
    (c, [])
  else
    let d : Dispatch := ⟨Fence.both, action, cbList c Fence.both action⟩
    let c1 := setActive c Fence.both (action == EventAction.enter)
    (setActive (setActive c1 Fence.min (action == EventAction.enter))
       Fence.max (action == EventAction.enter), [d])

/-- `this.trigger(eventName, force, triggerBoth)` (`corralTrigger`,
part_000 lines 274-320): event names arrive parsed as (fence, action); an
undefined `force` is `false` and an undefined `triggerBoth` defaults to `true`
as in the source.  Structure, in source order:
1. no-op if `isActive(fence) === (action === 'enter') && !force`;
2. dispatch the callbacks of (fence, action);
3. set `_callbacks[fence].active = (action === 'enter')`;
4. if the fence is `'both'`, also force the `min` and `max` flags
   (via `triggerBothFence`);
5. else, if `triggerBoth`, and the complement fence is active, and
   `isActive('both') !== (action === 'enter') && !force`, recursively trigger
   `action + '-both'` (with no `force` argument). -/
def corralTrigger (c : Corral) (fence : Fence) (action : EventAction)
    (force : Bool) (triggerBoth : Bool) : Corral × List Dispatch :=
  match fence with
  | Fence.both => triggerBothFence c action force
  | Fence.min =>
    if isActive c Fence.min == (action == EventAction.enter) && !force then
      (c, [])
    else
      let d : Dispatch := ⟨Fence.min, action, cbList c Fence.min action⟩
      let c1 := setActive c Fence.min (action == EventAction.enter)
      if triggerBoth then
        if isActive c1 Fence.max then
          if isActive c1 Fence.both != (action == EventAction.enter) && !force then
            let r := triggerBothFence c1 action false
            (r.1, d :: r.2)
          else (c1, [d])
        else (c1, [d])
      else (c1, [d])
  | Fence.max =>
    if isActive c Fence.max == (action == EventAction.enter) && !force then
      (c, [])
    else
      let d : Dispatch := ⟨Fence.max, action, cbList c Fence.max action⟩
      let c1 := setActive c Fence.max (action == EventAction.enter)
      if triggerBoth then
        if isActive c1 Fence.min then
          if isActive c1 Fence.both != (action == EventAction.enter) && !force then
            let r := triggerBothFence c1 action false
            (r.1, d :: r.2)
          else (c1, [d])
        else (c1, [d])
      else (c1, [d])

/-- The media query value object built by `Corral.prototype.query`
(corral.js lines 651-676); part_000's `queryString` serialises the same three
components into the string `'(' + fence + '-' + axis + ':' + value + ')'`. -/
structure MediaQuery where
  axis : String
  fence : Fence
  value : String
deriving DecidableEq, Repr

/-- `Corral.prototype.query(fence)` / part_000's `queryString(fence)`
(lines 354-373): for a missing fence value, `min` defaults to `'1px'` and
`max` to `'20000px'`; the fence `'both'` makes the source throw
(`fence should be min or max`), modelled as `none` — the one caller only
passes `'min'` and `'max'`. -/
def query (c : Corral) (fence : Fence) : Option MediaQuery :=
  match fence with
  | Fence.both => none
  | Fence.min => some ⟨c.props.axis, Fence.min, c.props.min.getD "1px"⟩
  | Fence.max => some ⟨c.props.axis, Fence.max, c.props.max.getD "20000px"⟩

/-- One iteration of the `for (var i in fences)` loop of
`Corral.prototype.check` (`checkThisCorral`, part_000 lines 332-351): query
the injected media-query predicate for this fence, and trigger
`enter-`/`exit-` + fence (with default `force`/`triggerBoth`) only when the
match disagrees with the current `active` flag. -/
def checkFence (c : Corral) (p : MediaQuery → Bool) (fence : Fence) :
    Corral × List Dispatch :=
  match query c fence with
  | none => (c, [])
  | some q =>
    if p q then
      if !(isActive c fence) then
        corralTrigger c fence EventAction.enter false true
      else (c, [])
    else
      if isActive c fence then
        corralTrigger c fence EventAction.exit false true
      else (c, [])

/-- `Corral.prototype.check` (`checkThisCorral`, part_000 lines 332-351):
the loop over `fences = ['min', 'max']`, unrolled in source order. -/
def checkThisCorral (c : Corral) (p : MediaQuery → Bool) :
    Corral × List Dispatch :=
  let r1 := checkFence c p Fence.min
  let r2 := checkFence r1.1 p Fence.max
  (r2.1, r1.2 ++ r2.2)

/-! ## The corral registry

The module-level `var corrals = {}` object: a string-keyed, insertion-ordered
map from corral names to instances, modelled as an association list.
-/

/-- The `corrals` object. -/
abbrev Registry := List (String × Corral)

/-- `corrals.hasOwnProperty(k)`. -/
def hasOwn (regs : Registry) (k : String) : Bool :=
  regs.any (fun e => e.1 == k)

/-- `corrals[k]` as a read (undefined becomes `none`). -/
def rlookup (regs : Registry) (k : String) : Option Corral :=
  match regs with
  | [] => none
  | e :: rest => if e.1 == k then some e.2 else rlookup rest k

/-- `corrals[k] = c`: overwrite in place when the key exists (JavaScript keeps
the original insertion position), append otherwise. -/
def rinsert (regs : Registry) (k : String) (c : Corral) : Registry :=
  if hasOwn regs k then
    regs.map (fun e => if e.1 == k then (k, c) else e)
  else
    regs ++ [(k, c)]

/-- `delete corrals[k]`. -/
def rdelete (regs : Registry) (k : String) : Registry :=
  regs.filter (fun e => !(e.1 == k))

/-- `checkAllCorrals()` (part_000 lines 35-43): iterate every registered
corral in insertion order and run its `check()` against the injected
media-query predicate, accumulating the dispatched events. -/
def checkAllCorrals (regs : Registry) (p : MediaQuery → Bool) :
    Registry × List Dispatch :=
  match regs with
  | [] => ([], [])
  | e :: rest =>
    let r := checkThisCorral e.2 p
    let rr := checkAllCorrals rest p
    ((e.1, r.1) :: rr.1, r.2 ++ rr.2)

/-- An argument that is either a Corral instance or a corral name, as
accepted by `Corral.remove` and `Corral._event`. -/
inductive CorralRef where
  | inst (c : Corral)
  | byName (s : String)

/-- When a Corral instance is passed to `Corral.remove` (`deleteCorral`,
part_000 lines 413-427), the source reads `corralName = corral.name` — the
accessor *function* itself, not its return value `corral.name()`.  Used as a
property key, a JavaScript function coerces to its source text (the same text
for every instance, since all accessors share one definition), which is never
the name a corral was registered under. -/
def nameAccessorKey : String := "function (val) [name accessor source text]"

/-- `Corral.remove(corral)` (`deleteCorral`, part_000 lines 413-427 /
`removeCorral`, corral.js lines 679-693, identical): resolve the registry key
— the literal `corral.name` accessor function for an instance argument, the
string itself for a name argument — then delete the entry and return `true`
if the key is present, `false` otherwise. -/
def removeCorral (regs : Registry) (arg : CorralRef) : Bool × Registry :=
  let corralName :=
    match arg with
    | .inst _ => nameAccessorKey
    | .byName s => s
  if hasOwn regs corralName then
    (true, rdelete regs corralName)
  else
    (false, regs)

/-- `Corral.get(corralName)` (part_000 lines 429-433). -/
def getCorral (regs : Registry) (corralName : String) : Option Corral :=
  if hasOwn regs corralName then rlookup regs corralName else none

/-! ## JavaScript callback values and their sanitisation -/

/-- The error kinds raised by the library, all synchronous `throw new Error`
(plus the TypeErrors JavaScript itself raises on the source's slips). -/
inductive CError where
  /-- `sanitiseCallbacks(): callbacks argument was not a function or array` -/
  | notFnOrArray
  /-- `sanitiseCallbacks(): got a bad callback -- was not a function` -/
  | badCallback
  /-- a TypeError raised by JavaScript (property access on `undefined`) -/
  | typeError
deriving DecidableEq, Repr

/-- A JavaScript value in a callback position: a function (an inert
identifier), an array, a plain object, `undefined`, or any other primitive
(a number, a string, a boolean).  `null` fence values, whose property access
raises a TypeError, are outside this model. -/
inductive JVal where
  | jfn (n : Nat)
  | jarr (l : List JVal)
  | jobj (o : List (String × JVal))
  | jundef
  | jprim

/-- Property read `v[k]` on a JavaScript value: a key lookup on a plain
object (missing keys give `undefined`), `undefined` on anything else that
admits property access. -/
def getField (v : JVal) (k : String) : JVal :=
  match v with
  | .jobj o => goLookup o
  | _ => .jundef
where
  goLookup : List (String × JVal) → JVal
    | [] => .jundef
    | e :: rest => if e.1 == k then e.2 else goLookup rest

/-- The `for (var i in callbacks)` loop of `sanitiseCallbacks`: push each
function, throw on the first non-function element. -/
def sanitiseLoop : List JVal → Except CError (List Nat)
  | [] => .ok []
  | v :: rest =>
    match v with
    | .jfn n =>
      match sanitiseLoop rest with
      | .ok l => .ok (n :: l)
      | .error e => .error e
    | _ => .error .badCallback

/-- `sanitiseCallbacks(callbacks)` (part_000 lines 98-120): a lone function is
wrapped into a one-element array; anything that is neither an array nor a
function throws; array elements must each be functions. -/
def sanitiseCallbacks (callbacks : JVal) : Except CError (List Nat) :=
  match callbacks with
  | .jarr l => sanitiseLoop l
  | .jfn n => .ok [n]
  | _ => .error .notFnOrArray

/-! ## The constructor -/

/-- `o.hasOwnProperty(k)` on a plain-object key list. -/
def hasKey (o : List (String × JVal)) (k : String) : Bool :=
  o.any (fun e => e.1 == k)

/-- Map the fence strings `'min'`, `'max'`, `'both'` (the own keys of
`_callbacks`, which is what `_callbacks.hasOwnProperty(fence)` recognises)
to fences; anything else is unrecognised and skipped by the constructor. -/
def fenceOfString (s : String) : Option Fence :=
  if s == "min" then some Fence.min
  else if s == "max" then some Fence.max
  else if s == "both" then some Fence.both
  else none

/-- The shorthand step of the constructor (part_000 lines 149-160): a
callbacks object with none of the keys `min`/`max`/`both` but with `enter` or
`exit` is rewrapped as `{both: callbacks}`. -/
def shorthandTransform (o : List (String × JVal)) : List (String × JVal) :=
  if !hasKey o "min" && !hasKey o "max" && !hasKey o "both" &&
      (hasKey o "enter" || hasKey o "exit") then
    [("both", JVal.jobj o)]
  else o

/-- The `for (var fence in newCallbacks)` loop of the constructor (part_000
lines 162-167): for each own key recognised by `_callbacks.hasOwnProperty`,
assign `_callbacks[fence].enter = sanitiseCallbacks(newCallbacks[fence].enter)`
then the same for `exit`.  A throw from `sanitiseCallbacks` aborts the loop;
the corral built so far (assignments already performed) is returned alongside
the error, because the thrown-into caller still holds the mutated object. -/
def processFences (c : Corral) : List (String × JVal) → Corral × Option CError
  | [] => (c, none)
  | (fence, v) :: rest =>
    match fenceOfString fence with
    | none => processFences c rest
    | some f =>
      match sanitiseCallbacks (getField v "enter") with
      | .error e => (c, some e)
      | .ok entCbs =>
        let c1 := setCbList c f EventAction.enter entCbs
        match sanitiseCallbacks (getField v "exit") with
        | .error e => (c1, some e)
        | .ok exCbs => processFences (setCbList c1 f EventAction.exit exCbs) rest

/-- The corral as first initialised by the constructor: `_props` holds the
constructor arguments (the `exists(newMin)` guards collapse, since a missing
value leaves the initial `null`) and `_callbacks` holds empty lists with all
three `active` flags `false`. -/
def freshCorral (newName newAxis : String) (newMin newMax : Option String) :
    Corral :=
  { props := { name := newName, axis := newAxis, min := newMin, max := newMax }
    callbacks :=
      { min := { enter := [], exit := [], active := false }
        max := { enter := [], exit := [], active := false }
        both := { enter := [], exit := [], active := false } } }

/-- `new Corral(newName, newAxis, newMin, newMax, newCallbacks)`
(`CorralConstructor`, part_000 lines 123-168 and 322-324):
initialise `_props` and empty `_callbacks`; register the instance with
`corrals[newName] = this` (line 136) *before* the optional min/max assignment
and before the callbacks argument is validated; then process the callbacks
argument (shorthand rewrap, per-fence sanitisation, which may throw); finally
run `this.check()` against the injected predicate.  Because the registered
object is the very object being mutated, the returned registry holds the
corral as of the point the constructor returned or threw.  A non-object
callbacks argument is skipped; a JavaScript array argument walks its index
keys, none of which `_callbacks` recognises, so it is equivalent to skipping
and is folded into the skip branch. -/
def CorralConstructor (regs : Registry) (p : MediaQuery → Bool)
    (newName newAxis : String) (newMin newMax : Option String)
    (newCallbacks : Option JVal) : Registry × Except CError (List Dispatch) :=
  let c0 : Corral := freshCorral newName newAxis newMin newMax
  match newCallbacks with
  | some (JVal.jobj o) =>
    match processFences c0 (shorthandTransform o) with
    | (c1, some e) => (rinsert regs newName c1, .error e)
    | (c1, none) =>
      let r := checkThisCorral c1 p
      (rinsert regs newName r.1, .ok r.2)
  | _ =>
    let r := checkThisCorral c0 p
    (rinsert regs newName r.1, .ok r.2)

/-! ## Event binding and unbinding -/

/-- The `for (var i in callbacks)` loop of `this.on` (`corralOn`, part_000
lines 208-227): for each sanitised callback, invoke it immediately when
`isActive(fence) === (action === 'enter')` already holds, then push it onto
`_callbacks[fence][action]`.  Returns the updated corral and the list of
immediately invoked callbacks, in order. -/
def onLoop (c : Corral) (fence : Fence) (action : EventAction) :
    List Nat → Corral × List Nat
  | [] => (c, [])
  | cb :: rest =>
    let invokedNow : List Nat :=
      if isActive c fence == (action == EventAction.enter) then [cb] else []
    let c1 := setCbList c fence action (cbList c fence action ++ [cb])
    let r := onLoop c1 fence action rest
    (r.1, invokedNow ++ r.2)

/-- `this.on(eventName, callbacks)` (`corralOn`, part_000 lines 208-227):
the event name arrives parsed as (fence, action); the callbacks argument is
sanitised (which may throw), then `onLoop` runs. -/
def corralOn (c : Corral) (fence : Fence) (action : EventAction)
    (callbacks : JVal) : Except CError (Corral × List Nat) :=
  match sanitiseCallbacks callbacks with
  | .error e => .error e
  | .ok l => .ok (onLoop c fence action l)

/-- The callbacks-supplied loop of `this.off` (`corralOff`, part_000 lines
240-250): for each passed callback found in `_callbacks[fence][action]`, the
source executes `delete _callbacks[eventInfo.callback.fence][...]` — but
`eventInfo.callback` is undefined (`parseEventName` returns only `action` and
`fence`), so the first *found* callback raises a TypeError.  Callbacks not
found are skipped without error. -/
def offLoop (c : Corral) (fence : Fence) (action : EventAction) :
    List Nat → Except CError Corral
  | [] => .ok c
  | cb :: rest =>
    if (cbList c fence action).contains cb then .error .typeError
    else offLoop c fence action rest

/-- `this.off(eventName, callbacks)` (`corralOff`, part_000 lines 230-267):
with callbacks supplied, sanitise then run `offLoop`; with callbacks omitted,
the source immediately reads `_callbacks[eventInfo.callback.fence]` where
`eventInfo.callback` is undefined — a TypeError. -/
def corralOff (c : Corral) (fence : Fence) (action : EventAction)
    (callbacks : Option JVal) : Except CError Corral :=
  match callbacks with
  | some v =>
    match sanitiseCallbacks v with
    | .error e => .error e
    | .ok l => offLoop c fence action l
  | none => .error .typeError

/-- `Corral.off(corral, eventName, callback)` (`offCorral`, part_000 lines
403-405) routed through `Corral._event('off', ...)` (lines 377-395) with the
target given by name: when the name is registered, the instance `off` runs
on the registered corral; when it is not, **both** `instanceof` and
`hasOwnProperty` branches fail and `_event` falls through to an implicit
`return undefined` — no error of any kind is raised.  (The trailing `else`
that throws belongs to the event-*type* check, and `'off'` is a valid event
type.) -/
def offCorral (regs : Registry) (corralName : String) (fence : Fence)
    (action : EventAction) (callbacks : Option JVal) :
    Except CError Registry :=
  if hasOwn regs corralName then
    match rlookup regs corralName with
    | none => .ok regs
    | some c =>
      match corralOff c fence action callbacks with
      | .error e => .error e
      | .ok c1 => .ok (rinsert regs corralName c1)
  else
    .ok regs

/-! ## Breakpoints introspection -/

/-- One entry of the object `Corral.breakpoints()` is documented to return:
the axis plus the min/max values when set. -/
structure Breakpoint where
  axis : String
  min : Option String
  max : Option String
deriving DecidableEq, Repr

/-- The string a plain JavaScript object coerces to when used as a property
key, as happens to the accumulator object in `corrals[breakpoints]`. -/
def objectKeyString : String := "[object Object]"

/-- The `for (corralName in corrals)` loop of `Corral.breakpoints`
(`getAllBreakpoints`, part_000 lines 443-467 / corral.js lines 709-733,
identical): each iteration sets `breakpoint.axis = corral.axis()` but then
reads `corrals[breakpoints].min()` — indexing the registry with the
*accumulator object* `breakpoints` (which coerces to `"[object Object]"`)
instead of the current corral.  Unless a corral is registered under that
exact name, `corrals[breakpoints]` is `undefined` and `.min()` raises a
TypeError. -/
def breakpointsLoop (regs : Registry) :
    List (String × Corral) → List (String × Breakpoint) →
    Except CError (List (String × Breakpoint))
  | [], acc => .ok acc
  | (nm, c) :: rest, acc =>
    match rlookup regs objectKeyString with
    | none => .error .typeError
    | some other =>
      let bp : Breakpoint :=
        { axis := c.props.axis, min := other.props.min, max := other.props.max }
      breakpointsLoop regs rest (acc ++ [(nm, bp)])

/-- `Corral.breakpoints()` (`getAllBreakpoints`). -/
def getAllBreakpoints (regs : Registry) :
    Except CError (List (String × Breakpoint)) :=
  breakpointsLoop regs regs []

/-! ## Specification predicates and fixtures -/

/-- The fence's `active` flag agrees with what the injected predicate
currently reports for that fence's media query (trivially true for `both`,
which has no query).  This is the rest condition of a corral that has been
checked against an unchanged predicate. -/
def fenceMatches (c : Corral) (p : MediaQuery → Bool) (fence : Fence) : Bool :=
  match query c fence with
  | none => true
  | some q => isActive c fence == p q

/-- Both elementary fences agree with the injected predicate. -/
def stateMatches (c : Corral) (p : MediaQuery → Bool) : Bool :=
  fenceMatches c p Fence.min && fenceMatches c p Fence.max

/-- `sanitiseCallbacks` throws on this value: it is neither a function nor an
array, or an array holding a non-function. -/
def sanitiseFails (v : JVal) : Bool :=
  match sanitiseCallbacks v with
  | .error _ => true
  | .ok _ => false

/-- A concrete corral fixture: axis `width`, fences `100px`/`200px`, one
distinct callback per (fence, action), and the given three `active` flags. -/
def sampleCorral (ma xa ba : Bool) : Corral :=
  { props := { name := "a", axis := "width", min := some "100px", max := some "200px" }
    callbacks :=
      { min := { enter := [1], exit := [2], active := ma }
        max := { enter := [3], exit := [4], active := xa }
        both := { enter := [5], exit := [6], active := ba } } }

/-! ## Theorems -/

/-- C1: the conjunction invariant `conjunctionActive == lowerActive &&
upperActive` is claimed to hold at every rest point between trigger calls,
including after a trigger with force.  Evaluating the code at the failing
input — a freshly inactive corral, `trigger('enter-max')`, then
`trigger('enter-min', force = true)` — leaves the corral at rest with
`lowerActive = upperActive = true` but `conjunctionActive = false`: the
forced elementary trigger suppresses the conjunction cascade (the guard reads
`... && !force` where the source's own comment says "unless the force flag
has been set"), so the invariant is broken. -/
theorem c1_forced_trigger_breaks_conjunction_invariant :
    isActive
        (corralTrigger
          (corralTrigger (sampleCorral false false false)
              Fence.max EventAction.enter false true).1
          Fence.min EventAction.enter true true).1 Fence.min = true ∧
      isActive
        (corralTrigger
          (corralTrigger (sampleCorral false false false)
              Fence.max EventAction.enter false true).1
          Fence.min EventAction.enter true true).1 Fence.max = true ∧
      isActive
        (corralTrigger
          (corralTrigger (sampleCorral false false false)
              Fence.max EventAction.enter false true).1
          Fence.min EventAction.enter true true).1 Fence.both = false := by
  decide

/-- C4: the claim (and the source's own comment) says a forced elementary
trigger with the complement active and the conjunction state differing still
derives the conjunction event.  Evaluating the code at the failing input —
state lower inactive, upper active, conjunction inactive, then
`trigger('enter-min', force = true)` — dispatches only the `enter-min` event
(the nonempty `enter-both` callback list `[5]` is never dispatched) and
leaves `conjunctionActive = false`: the guard `... && !force` suppresses the
cascade exactly when `force` is set. -/
theorem c4_force_suppresses_conjunction_cascade :
    (corralTrigger (sampleCorral false true false)
        Fence.min EventAction.enter true true).2 =
      [⟨Fence.min, EventAction.enter, [1]⟩] ∧
      isActive (corralTrigger (sampleCorral false true false)
          Fence.min EventAction.enter true true).1 Fence.both = false := by
  decide

/-- C5 counterexample: from the reachable state `lowerActive = true`,
`upperActive = false`, `conjunctionActive = false`, a direct conjunction
trigger `trigger('exit-both')` is absorbed by the idempotence guard
(`conjunctionActive` already equals `false`), so it returns with
`lowerActive` still `true` — not all three flags equal
`(direction == enter) = false` after the call, refuting the unconditional
claim. -/
theorem c5_counterexample :
    corralTrigger (sampleCorral true false false)
        Fence.both EventAction.exit false true =
      (sampleCorral true false false, []) ∧
      isActive (sampleCorral true false false) Fence.min = true := by
  decide

/-- C5 (amended): provided the direct conjunction trigger is not absorbed by
the idempotence guard — that is, `conjunctionActive != (direction == enter)`
or `force` — it sets `lowerActive` and `upperActive` to `(direction ==
enter)` in addition to `conjunctionActive`, so that after it returns all
three activity flags equal `(direction == enter)`. -/
theorem c5_conjunction_trigger_authoritative
    (c : Corral) (action : EventAction) (force triggerBoth : Bool)
    (h : isActive c Fence.both ≠ (action == EventAction.enter) ∨ force = true) :
    isActive (corralTrigger c Fence.both action force triggerBoth).1 Fence.min
        = (action == EventAction.enter) ∧
      isActive (corralTrigger c Fence.both action force triggerBoth).1 Fence.max
        = (action == EventAction.enter) ∧
      isActive (corralTrigger c Fence.both action force triggerBoth).1 Fence.both
        = (action == EventAction.enter) := by
  have hguard : (isActive c Fence.both == (action == EventAction.enter) && !force) = false := by
    rcases h with h | h
    · rcases Bool.eq_false_or_eq_true force with hf | hf <;>
        simp [hf, Bool.beq_eq_decide_eq] at *
      exact h
    · simp [h]
  simp only [corralTrigger, triggerBothFence]
  rw [hguard]
  simp [isActive, setActive]

/-- C5 witness: the amended theorem applied at the counterexample's own
state with direction `enter`, where the guard does not absorb the call. -/
theorem c5_witness :
    isActive (corralTrigger (sampleCorral true false false)
        Fence.both EventAction.enter false true).1 Fence.min
        = (EventAction.enter == EventAction.enter) ∧
      isActive (corralTrigger (sampleCorral true false false)
          Fence.both EventAction.enter false true).1 Fence.max
        = (EventAction.enter == EventAction.enter) ∧
      isActive (corralTrigger (sampleCorral true false false)
          Fence.both EventAction.enter false true).1 Fence.both
        = (EventAction.enter == EventAction.enter) :=
  c5_conjunction_trigger_authoritative (sampleCorral true false false)
    EventAction.enter false true (Or.inl (by decide))

/-- C7: `Corral.remove` is claimed to return `true` and deregister when given
the Region instance itself.  Evaluating the code at the failing input — a
registry holding the corral under its id `"a"`, with the instance passed —
returns `false` and leaves the registry untouched: the source reads
`corral.name` (the accessor function, which as a property key coerces to its
source text) instead of `corral.name()`, so `hasOwnProperty` never matches,
contradicting the code's own documentation that an instance argument is
accepted. -/
theorem c7_remove_by_instance_returns_false :
    removeCorral [("a", sampleCorral true true true)]
        (CorralRef.inst (sampleCorral true true true)) =
      (false, [("a", sampleCorral true true true)]) := by
  decide

/-- C8 counterexample: unsubscribing against the unknown Region name
`"ghost"` on a registry holding only `"a"` returns `Except.ok` with the
registry unchanged — `Corral._event` falls through both lookup branches to
an implicit `return undefined` — rather than signalling any NotFoundError. -/
theorem c8_counterexample :
    offCorral [("a", sampleCorral true false false)] "ghost"
        Fence.min EventAction.enter none =
      .ok [("a", sampleCorral true false false)] := by
  rfl

/-- C8 (amended): unsubscribing against an unknown Region name returns
silently with no effect — no error is signalled and the registry is
unchanged. -/
theorem c8_off_unknown_region_is_silent
    (regs : Registry) (corralName : String) (fence : Fence)
    (action : EventAction) (callbacks : Option JVal)
    (h : hasOwn regs corralName = false) :
    offCorral regs corralName fence action callbacks = .ok regs := by
  simp [offCorral, h]

/-- C8 witness: the amended theorem applied at the counterexample input. -/
theorem c8_witness :
    offCorral [("a", sampleCorral false false false)] "nowhere"
        Fence.max EventAction.exit none =
      .ok [("a", sampleCorral false false false)] :=
  c8_off_unknown_region_is_silent [("a", sampleCorral false false false)]
    "nowhere" Fence.max EventAction.exit none (by decide)

/-- C9: `Corral.breakpoints` is claimed to return the id-to-
`{axis, min, max}` mapping without throwing.  Evaluating the code at the
failing input — any registry with at least one corral — raises a TypeError:
the loop body indexes `corrals[breakpoints]` (the accumulator object, which
coerces to the key `"[object Object]"`) instead of the current corral, gets
`undefined`, and calls `.min()` on it. -/
theorem c9_breakpoints_raises_type_error :
    getAllBreakpoints [("mobile", sampleCorral false false false)] =
      .error CError.typeError := by
  rfl

/-- C2: `trigger` is a no-op — corral unchanged, nothing dispatched — unless
`force` is set or the fence's current state differs from
`(direction == enter)`; and calling `trigger(min, enter)` twice in a row
without `force` on a min-inactive corral dispatches the `(min, enter)`
subscription list exactly once (any further dispatch of the first call is
the derived `both` cascade), while the second call changes no state and
dispatches nothing. -/
theorem c2_trigger_noop_and_idempotent :
    (∀ (c : Corral) (fence : Fence) (action : EventAction) (triggerBoth : Bool),
        isActive c fence = (action == EventAction.enter) →
        corralTrigger c fence action false triggerBoth = (c, [])) ∧
    (∀ c : Corral, isActive c Fence.min = false →
        corralTrigger (corralTrigger c Fence.min EventAction.enter false true).1
            Fence.min EventAction.enter false true
          = ((corralTrigger c Fence.min EventAction.enter false true).1, []) ∧
        ((corralTrigger c Fence.min EventAction.enter false true).2 ++
            (corralTrigger
              (corralTrigger c Fence.min EventAction.enter false true).1
              Fence.min EventAction.enter false true).2).filter
            (fun d => d.fence == Fence.min && d.action == EventAction.enter)
          = [⟨Fence.min, EventAction.enter,
              cbList c Fence.min EventAction.enter⟩]) := by
  constructor
  · intro c fence action triggerBoth h
    cases fence <;> simp [corralTrigger, triggerBothFence, h]
  · intro c h
    obtain ⟨⟨nm, ax, mn, mx⟩, ⟨e1, x1, a1⟩, ⟨e2, x2, a2⟩, ⟨e3, x3, a3⟩⟩ := c
    simp only [isActive] at h
    subst h
    cases a2 <;> cases a3 <;>
      exact ⟨rfl, rfl⟩

/-- C2 witness: the no-op half at a max-active corral with an `exit`
direction, and the double-call half at a min-inactive corral. -/
theorem c2_witness :
    corralTrigger (sampleCorral false false false)
        Fence.max EventAction.exit false true
      = (sampleCorral false false false, []) ∧
    corralTrigger
        (corralTrigger (sampleCorral false false false)
          Fence.min EventAction.enter false true).1
        Fence.min EventAction.enter false true
      = ((corralTrigger (sampleCorral false false false)
          Fence.min EventAction.enter false true).1, []) :=
  ⟨c2_trigger_noop_and_idempotent.1 (sampleCorral false false false)
      Fence.max EventAction.exit true (by decide),
   (c2_trigger_noop_and_idempotent.2 (sampleCorral false false false)
      (by decide)).1⟩

/-- C3: on a corral with both fence values set whose three activity flags are
all inactive, when the injected predicate reports both elementary fences
satisfied, one `check()` dispatches `enter-min`, then `enter-max`, then
`enter-both`, each exactly once and in that order — each carrying its own
subscription list — and no other events. -/
theorem c3_conjunction_derivation_order
    (c : Corral) (p : MediaQuery → Bool) (mnv mxv : String)
    (hmn : c.props.min = some mnv) (hmx : c.props.max = some mxv)
    (h1 : isActive c Fence.min = false) (h2 : isActive c Fence.max = false)
    (h3 : isActive c Fence.both = false)
    (hp1 : p ⟨c.props.axis, Fence.min, mnv⟩ = true)
    (hp2 : p ⟨c.props.axis, Fence.max, mxv⟩ = true) :
    (checkThisCorral c p).2 =
      [⟨Fence.min, EventAction.enter, cbList c Fence.min EventAction.enter⟩,
       ⟨Fence.max, EventAction.enter, cbList c Fence.max EventAction.enter⟩,
       ⟨Fence.both, EventAction.enter, cbList c Fence.both EventAction.enter⟩] := by
  obtain ⟨⟨nm, ax, mn, mx⟩, ⟨e1, x1, a1⟩, ⟨e2, x2, a2⟩, ⟨e3, x3, a3⟩⟩ := c
  simp only [isActive] at h1 h2 h3
  simp only at hmn hmx hp1 hp2
  subst h1; subst h2; subst h3; subst hmn; subst hmx
  simp [checkThisCorral, checkFence, query, hp1, hp2, corralTrigger,
    triggerBothFence, isActive, setActive, cbList]

/-- C3 witness: the theorem applied to the concrete fixture with an
always-true predicate. -/
theorem c3_witness :
    (checkThisCorral (sampleCorral false false false) (fun _ => true)).2 =
      [⟨Fence.min, EventAction.enter, [1]⟩,
       ⟨Fence.max, EventAction.enter, [3]⟩,
       ⟨Fence.both, EventAction.enter, [5]⟩] :=
  c3_conjunction_derivation_order (sampleCorral false false false)
    (fun _ => true) "100px" "200px" rfl rfl rfl rfl rfl rfl rfl

/-- `setCbList` changes no `active` flag. -/
theorem isActive_setCbList (c : Corral) (f : Fence) (a : EventAction)
    (l : List Nat) (f' : Fence) : isActive (setCbList c f a l) f' = isActive c f' := by
  cases f <;> cases a <;> cases f' <;> rfl

/-- `setCbList` changes no props. -/
theorem props_setCbList (c : Corral) (f : Fence) (a : EventAction)
    (l : List Nat) : (setCbList c f a l).props = c.props := by
  cases f <;> cases a <;> rfl

/-- `setCbList` changes no media query. -/
theorem query_setCbList (c : Corral) (f : Fence) (a : EventAction)
    (l : List Nat) (f' : Fence) : query (setCbList c f a l) f' = query c f' := by
  cases f' <;> simp [query, props_setCbList]

/-- `setCbList` preserves agreement with the predicate. -/
theorem fenceMatches_setCbList (c : Corral) (p : MediaQuery → Bool)
    (f : Fence) (a : EventAction) (l : List Nat) (f' : Fence) :
    fenceMatches (setCbList c f a l) p f' = fenceMatches c p f' := by
  simp only [fenceMatches, query_setCbList, isActive_setCbList]

/-- When the fence already satisfies the direction, every callback passed to
`on` is invoked immediately, in order, exactly once. -/
theorem onLoop_invokes_all (c : Corral) (f : Fence) (a : EventAction)
    (l : List Nat) (h : isActive c f = (a == EventAction.enter)) :
    (onLoop c f a l).2 = l := by
  induction l generalizing c with
  | nil => rfl
  | cons cb rest ih =>
    simp [onLoop, h, ih _ ((isActive_setCbList ..).trans h)]

/-- `onLoop` changes no `active` flag. -/
theorem isActive_onLoop (c : Corral) (f : Fence) (a : EventAction)
    (l : List Nat) (f' : Fence) :
    isActive (onLoop c f a l).1 f' = isActive c f' := by
  induction l generalizing c with
  | nil => rfl
  | cons cb rest ih => simp [onLoop, ih, isActive_setCbList]

/-- `onLoop` changes no props. -/
theorem props_onLoop (c : Corral) (f : Fence) (a : EventAction)
    (l : List Nat) : (onLoop c f a l).1.props = c.props := by
  induction l generalizing c with
  | nil => rfl
  | cons cb rest ih => simp [onLoop, ih, props_setCbList]

/-- `onLoop` preserves agreement with the predicate. -/
theorem stateMatches_onLoop (c : Corral) (p : MediaQuery → Bool)
    (f : Fence) (a : EventAction) (l : List Nat) :
    stateMatches (onLoop c f a l).1 p = stateMatches c p := by
  induction l generalizing c with
  | nil => rfl
  | cons cb rest ih =>
    simp only [onLoop, ih]
    simp only [stateMatches, fenceMatches_setCbList]

/-- A fence whose flag agrees with the predicate produces no dispatch in
`check`. -/
theorem checkFence_noop (c : Corral) (p : MediaQuery → Bool) (f : Fence)
    (h : fenceMatches c p f = true) : checkFence c p f = (c, []) := by
  cases f with
  | both => rfl
  | min =>
    have h' : isActive c Fence.min
        = p ⟨c.props.axis, Fence.min, c.props.min.getD "1px"⟩ := by
      simpa [fenceMatches, query] using h
    cases hq : p ⟨c.props.axis, Fence.min, c.props.min.getD "1px"⟩ <;>
      simp [checkFence, query, hq, h' ▸ hq]
  | max =>
    have h' : isActive c Fence.max
        = p ⟨c.props.axis, Fence.max, c.props.max.getD "20000px"⟩ := by
      simpa [fenceMatches, query] using h
    cases hq : p ⟨c.props.axis, Fence.max, c.props.max.getD "20000px"⟩ <;>
      simp [checkFence, query, hq, h' ▸ hq]

/-- A corral at rest with respect to the predicate is left unchanged by
`check`, with no dispatch at all. -/
theorem checkThisCorral_noop (c : Corral) (p : MediaQuery → Bool)
    (h : stateMatches c p = true) : checkThisCorral c p = (c, []) := by
  obtain ⟨h1, h2⟩ := Bool.and_eq_true_iff.mp h
  simp [checkThisCorral, checkFence_noop c p Fence.min h1,
    checkFence_noop c p Fence.max h2]

/-- A registry whose corrals are all at rest with respect to the predicate is
left unchanged by `checkAllCorrals`, with no dispatch at all. -/
theorem checkAllCorrals_noop (regs : Registry) (p : MediaQuery → Bool)
    (h : ∀ e ∈ regs, stateMatches e.2 p = true) :
    checkAllCorrals regs p = (regs, []) := by
  induction regs with
  | nil => rfl
  | cons e rest ih =>
    simp [checkAllCorrals, checkThisCorral_noop e.2 p (h e (by simp)),
      ih (fun e' he' => h e' (by simp [he']))]

/-- A successful registry lookup returns the payload of some entry. -/
theorem mem_of_rlookup (regs : Registry) (k : String) (c : Corral)
    (h : rlookup regs k = some c) : ∃ e ∈ regs, e.2 = c := by
  induction regs with
  | nil => simp [rlookup] at h
  | cons e rest ih =>
    by_cases he : (e.1 == k) = true
    · simp [rlookup, he] at h
      exact ⟨e, by simp, h⟩
    · simp [rlookup, he] at h
      obtain ⟨e', he', hc⟩ := ih h
      exact ⟨e', by simp [he'], hc⟩

/-- `rinsert` preserves a per-entry property that the inserted corral also
satisfies. -/
theorem stateMatches_rinsert (regs : Registry) (p : MediaQuery → Bool)
    (k : String) (c : Corral)
    (h : ∀ e ∈ regs, stateMatches e.2 p = true)
    (hc : stateMatches c p = true) :
    ∀ e ∈ rinsert regs k c, stateMatches e.2 p = true := by
  intro e he
  rw [rinsert] at he
  split at he
  · obtain ⟨x, hx, hxe⟩ := List.mem_map.mp he
    by_cases hk : (x.1 == k) = true
    · simp [hk] at hxe
      rw [← hxe]
      exact hc
    · simp [hk] at hxe
      rw [← hxe]
      exact h x hx
  · rcases List.mem_append.mp he with hin | hin
    · exact h e hin
    · simp at hin
      rw [hin]
      exact hc

/-- C6: for a Region whose current state already satisfies a given
(boundary, direction), subscribing callbacks to it invokes each of them
immediately and exactly once at subscription time, and a subsequent recheck
of all Regions against the unchanged predicate (every registered corral at
rest with respect to it) dispatches nothing at all — in particular it does
not invoke that callback again. -/
theorem c6_late_subscription_replay
    (regs : Registry) (p : MediaQuery → Bool) (corralName : String)
    (c : Corral) (fence : Fence) (action : EventAction) (callbacks : JVal)
    (l : List Nat)
    (hall : ∀ e ∈ regs, stateMatches e.2 p = true)
    (hc : rlookup regs corralName = some c)
    (hactive : isActive c fence = (action == EventAction.enter))
    (hsan : sanitiseCallbacks callbacks = .ok l) :
    corralOn c fence action callbacks
        = .ok ((onLoop c fence action l).1, l) ∧
      checkAllCorrals (rinsert regs corralName (onLoop c fence action l).1) p
        = (rinsert regs corralName (onLoop c fence action l).1, []) := by
  have hcm : stateMatches c p = true := by
    obtain ⟨e, he, he2⟩ := mem_of_rlookup regs corralName c hc
    rw [← he2]
    exact hall e he
  constructor
  · simp only [corralOn, hsan]
    rw [show onLoop c fence action l
        = ((onLoop c fence action l).1, (onLoop c fence action l).2) from rfl,
      onLoop_invokes_all c fence action l hactive]
  · exact checkAllCorrals_noop _ p
      (stateMatches_rinsert regs p corralName _ hall
        ((stateMatches_onLoop c p fence action l).trans hcm))

/-- C6 witness: the fixture registry with a min-active corral, a predicate
reporting exactly the min fence, and one callback subscribed to
`enter-min`. -/
theorem c6_witness :
    corralOn (sampleCorral true false false) Fence.min EventAction.enter
        (JVal.jfn 7)
      = .ok ((onLoop (sampleCorral true false false) Fence.min
          EventAction.enter [7]).1, [7]) ∧
      checkAllCorrals
        (rinsert [("a", sampleCorral true false false)] "a"
          (onLoop (sampleCorral true false false) Fence.min
            EventAction.enter [7]).1)
        (fun q => q.fence == Fence.min)
      = (rinsert [("a", sampleCorral true false false)] "a"
          (onLoop (sampleCorral true false false) Fence.min
            EventAction.enter [7]).1, []) :=
  c6_late_subscription_replay [("a", sampleCorral true false false)]
    (fun q => q.fence == Fence.min) "a" (sampleCorral true false false)
    Fence.min EventAction.enter (JVal.jfn 7) [7]
    (by decide) (by decide) (by decide) rfl

/-- The constructor's fence loop changes no props. -/
theorem props_processFences (lst : List (String × JVal)) (c : Corral) :
    (processFences c lst).1.props = c.props := by
  induction lst generalizing c with
  | nil => rfl
  | cons hd tl ih =>
    obtain ⟨fence, v⟩ := hd
    simp only [processFences]
    cases fenceOfString fence with
    | none => exact ih c
    | some f =>
      cases sanitiseCallbacks (getField v "enter") with
      | error e => rfl
      | ok entCbs =>
        cases sanitiseCallbacks (getField v "exit") with
        | error e => simp [props_setCbList]
        | ok exCbs => simp [ih, props_setCbList]

/-- The constructor's fence loop changes no `active` flag. -/
theorem isActive_processFences (lst : List (String × JVal)) (c : Corral)
    (f' : Fence) : isActive (processFences c lst).1 f' = isActive c f' := by
  induction lst generalizing c with
  | nil => rfl
  | cons hd tl ih =>
    obtain ⟨fence, v⟩ := hd
    simp only [processFences]
    cases fenceOfString fence with
    | none => exact ih c
    | some f =>
      cases sanitiseCallbacks (getField v "enter") with
      | error e => rfl
      | ok entCbs =>
        cases sanitiseCallbacks (getField v "exit") with
        | error e => simp [isActive_setCbList]
        | ok exCbs => simp [ih, isActive_setCbList]

/-- If some recognised fence entry of the callbacks object fails
sanitisation, the constructor's fence loop raises an error. -/
theorem processFences_fails (lst : List (String × JVal)) (c : Corral)
    (h : ∃ fv ∈ lst, (fenceOfString fv.1).isSome = true ∧
        (sanitiseFails (getField fv.2 "enter") = true ∨
         sanitiseFails (getField fv.2 "exit") = true)) :
    (processFences c lst).2.isSome = true := by
  induction lst generalizing c with
  | nil => simp at h
  | cons hd tl ih =>
    obtain ⟨fv, hmem, hrec, hbad⟩ := h
    obtain ⟨fence, v⟩ := hd
    simp only [processFences]
    rcases List.mem_cons.mp hmem with heq | htl
    · subst heq
      cases hf : fenceOfString fence with
      | none => rw [hf] at hrec; simp at hrec
      | some f =>
        cases hsE : sanitiseCallbacks (getField v "enter") with
        | error e => rfl
        | ok entCbs =>
          cases hsX : sanitiseCallbacks (getField v "exit") with
          | error e => rfl
          | ok exCbs =>
            simp only [sanitiseFails, hsE, hsX] at hbad
            rcases hbad with hbad | hbad <;> exact absurd hbad (by simp)
    · cases fenceOfString fence with
      | none => exact ih c ⟨fv, htl, hrec, hbad⟩
      | some f =>
        cases sanitiseCallbacks (getField v "enter") with
        | error e => rfl
        | ok entCbs =>
          cases sanitiseCallbacks (getField v "exit") with
          | error e => rfl
          | ok exCbs => exact ih _ ⟨fv, htl, hrec, hbad⟩

/-- Looking a key up right after replacing it in place finds the new value. -/
theorem rlookup_map_replace (regs : Registry) (k : String) (c : Corral)
    (h : hasOwn regs k = true) :
    rlookup (regs.map fun e => if e.1 == k then (k, c) else e) k = some c := by
  induction regs with
  | nil => simp [hasOwn] at h
  | cons e rest ih =>
    cases he : (e.1 == k) with
    | true => simp [rlookup, he]
    | false =>
      have h' : hasOwn rest k = true := by
        simpa [hasOwn, he] using h
      simpa [rlookup, he] using ih h'

/-- Keys absent from the front of an appended registry are looked up in the
back. -/
theorem rlookup_append_right (regs l : Registry) (k : String)
    (h : hasOwn regs k = false) : rlookup (regs ++ l) k = rlookup l k := by
  induction regs with
  | nil => rfl
  | cons e rest ih =>
    have he : (e.1 == k) = false := by
      cases hc : (e.1 == k) with
      | false => rfl
      | true => simp [hasOwn, hc] at h
    have h' : hasOwn rest k = false := by
      simpa [hasOwn, he] using h
    simpa [rlookup, he] using ih h'

/-- Looking up a key right after `rinsert` finds the inserted corral. -/
theorem rlookup_rinsert (regs : Registry) (k : String) (c : Corral) :
    rlookup (rinsert regs k c) k = some c := by
  rw [rinsert]
  split
  · exact rlookup_map_replace regs k c (by assumption)
  · rw [rlookup_append_right regs [(k, c)] k (by simp_all)]
    simp [rlookup]

/-- C10: constructing a corral with a callbacks object some recognised fence
entry of which holds a non-function, non-array callback value makes the
constructor throw — yet the new, partially constructed corral (fresh
all-inactive state, the constructor's own props) has already been registered
under the new name before the error is raised, replacing whatever the
registry previously held there: creation is not atomic on error. -/
theorem c10_constructor_registers_before_throw
    (regs : Registry) (p : MediaQuery → Bool) (newName newAxis : String)
    (newMin newMax : Option String) (o : List (String × JVal))
    (hbad : ∃ fv ∈ shorthandTransform o, (fenceOfString fv.1).isSome = true ∧
        (sanitiseFails (getField fv.2 "enter") = true ∨
         sanitiseFails (getField fv.2 "exit") = true)) :
    (∃ e, (CorralConstructor regs p newName newAxis newMin newMax
        (some (JVal.jobj o))).2 = .error e) ∧
      ∃ c, rlookup (CorralConstructor regs p newName newAxis newMin newMax
            (some (JVal.jobj o))).1 newName = some c ∧
        c.props = ⟨newName, newAxis, newMin, newMax⟩ ∧
        isActive c Fence.min = false ∧ isActive c Fence.max = false ∧
        isActive c Fence.both = false := by
  have hfail := processFences_fails (shorthandTransform o)
    (freshCorral newName newAxis newMin newMax) hbad
  simp only [CorralConstructor]
  rcases hres : processFences (freshCorral newName newAxis newMin newMax)
      (shorthandTransform o) with ⟨c1, oe⟩
  rw [hres] at hfail
  cases oe with
  | none => simp at hfail
  | some e =>
    have hp := props_processFences (shorthandTransform o)
      (freshCorral newName newAxis newMin newMax)
    rw [hres] at hp
    have ha := fun f' => isActive_processFences (shorthandTransform o)
      (freshCorral newName newAxis newMin newMax) f'
    rw [hres] at ha
    exact ⟨⟨e, rfl⟩, c1, rlookup_rinsert regs newName c1, hp,
      ha Fence.min, ha Fence.max, ha Fence.both⟩

/-- C10 witness: `new Corral('a', 'width', null, null, {min: {enter: 42}})`
on the empty registry errors, yet registers a fresh corral under `'a'`. -/
theorem c10_witness :
    (∃ e, (CorralConstructor [] (fun _ => false) "a" "width" none none
        (some (JVal.jobj [("min", JVal.jobj [("enter", JVal.jprim)])]))).2
      = .error e) ∧
      ∃ c, rlookup (CorralConstructor [] (fun _ => false) "a" "width" none none
            (some (JVal.jobj [("min", JVal.jobj [("enter", JVal.jprim)])]))).1 "a"
          = some c ∧
        c.props = ⟨"a", "width", none, none⟩ ∧
        isActive c Fence.min = false ∧ isActive c Fence.max = false ∧
        isActive c Fence.both = false :=
  c10_constructor_registers_before_throw [] (fun _ => false) "a" "width"
    none none [("min", JVal.jobj [("enter", JVal.jprim)])]
    ⟨("min", JVal.jobj [("enter", JVal.jprim)]),
      List.mem_singleton.mpr rfl, by decide⟩

end CorralSpec
